import Mathlib

/-!
# cll_genie: client-side scripts

A shallow embedding of the five browser scripts under `cll_genie/static/js`
and the properties their specification states about them.  Each script is a
short synchronous handler; the part of the page it reads or writes is made an
explicit state that the handler transforms.
-/

namespace CllGenie

/-! ## validate_selected_seqs_form.js -/

/-- An `input` element below the form: whether the selector
`input[type="checkbox"]` matches it, and its `checked` property. -/
structure InputElement where
  isCheckbox : Bool
  checked : Bool
  deriving DecidableEq, Repr

/-- The part of the page `validateForm` can observe or change: the `input`
descendants of the element `#form_id`, the alert dialogs shown so far (oldest
first), and whether the default action of the pending submit event has been
prevented. -/
structure FormPage where
  inputs : List InputElement
  alerts : List String
  defaultPrevented : Bool
  deriving DecidableEq, Repr

/-- Line 2: `document.querySelectorAll('#' + form_id + ' input[type="checkbox"]')`. -/
def querySelectorAllCheckboxes (page : FormPage) : List InputElement :=
  page.inputs.filter (fun el => el.isCheckbox)

/-- Lines 3-9: `checked` starts false; the `for` loop walks the node list from
index 0 and leaves with `checked = true` at the first checked box (`break`). -/
def checkedLoop : List InputElement → Bool
  | [] => false
  | box :: rest => if box.checked then true else checkedLoop rest

/-- The text of the alert of line 14. -/
def alertMessage : String := "Please select at least one option."

/-- The function `validateForm(form_id)`: the page after the call and the
returned boolean. -/
def validateForm (page : FormPage) : FormPage × Bool :=
  let checkboxes := querySelectorAllCheckboxes page
  let checked := checkedLoop checkboxes
  let checked := if checkboxes.length == 0 then true else checked
  if !checked then
    ({ page with alerts := page.alerts ++ [alertMessage] }, false)
  else
    (page, true)

/-! ## display_selected_file.js -/

/-- A `File` of the input's `files` list; only its `name` is read. -/
structure File where
  name : String
  deriving DecidableEq, Repr

/-- A file-picker `input` element: its `files` list. -/
structure FileInput where
  files : List File
  deriving DecidableEq, Repr

/-- The document as `displaySelectedFile` sees it: the `textContent` of the
element with id `selected-file`, which the page markup provides. -/
structure FileDocument where
  selectedFile : String
  deriving DecidableEq, Repr

/-- The function `displaySelectedFile(input)`: the document after the call. -/
def displaySelectedFile (input : FileInput) (_doc : FileDocument) : FileDocument :=
  if h : input.files.length > 0 then
    { selectedFile := "Selected file: " ++ input.files[0].name }
  else
    { selectedFile := "" }

/-! ## vquest_updateLocus.js -/

/-- A JavaScript exception ending a handler early. -/
inductive JsError where
  | typeError
  deriving DecidableEq, Repr


/-- The values the lookup `receptors_loci_Dict[species]` can produce: one of the
arrays of the literal, `undefined` for a name found nowhere, or what the object
literal inherits from `Object.prototype` (a built-in function, whose `length`
is its number of parameters, or through `__proto__` the prototype object
itself, which has no `length`). -/
inductive JsValue where
  | undefined
  | array (items : List String)
  | func (length : Nat)
  | object
  deriving DecidableEq, Repr

/-- Lines 11-43: the own properties of the object literal, in source order. -/
def receptors_loci_Dict : List (String × List String) :=
  [ ("human", ["IG", "IGH", "IGK", "IGL", "TR", "TRA", "TRB", "TRG", "TRD"]),
    ("mouse", ["IG", "IGH", "IGK", "IGL", "TR", "TRA", "TRB", "TRG", "TRD"]),
    ("mas-night-monkey", ["TR", "TRA", "TRB", "TRG", "TRD"]),
    ("bovine", ["IG", "IGH", "IGK", "IGL", "TR", "TRA", "TRB", "TRG", "TRD"]),
    ("camel", ["IGK", "TR", "TRA", "TRB", "TRG", "TRD"]),
    ("dog", ["IG", "IGH", "IGK", "IGL", "TR", "TRA", "TRB", "TRG", "TRD"]),
    ("goat", ["IG", "IGK", "IGL"]),
    ("chondrichthyes", ["IG", "IGH"]),
    ("zebrafish", ["IG", "IGH", "IGI", "TR", "TRA", "TRD"]),
    ("horse", ["IG", "IGK", "IGH"]),
    ("cat", ["IG", "IGL", "IGK", "TR", "TRA", "TRB", "TRD", "TRG"]),
    ("cod", ["IGH"]),
    ("chicken", ["IG", "IGH", "IGL"]),
    ("gorilla", ["IG", "IGH", "IGK", "TR", "TRG"]),
    ("naked-mole-rat", ["TR", "TRA", "TRB", "TRD", "TRG"]),
    ("catfish", ["IGH"]),
    ("lemur", ["IG", "IGH", "IGK"]),
    ("crab-eating-macaque", ["IGH", "TRB"]),
    ("rhesus-monkey", ["IG", "IGH", "IGK", "IGL", "TR", "TRA", "TRB", "TRD", "TRG"]),
    ("ferret", ["TRB"]),
    ("nonhuman-primates", ["TR", "TRA", "TRB", "TRG", "TRD"]),
    ("platypus", ["IG", "IGH"]),
    ("rabbit", ["IG", "IGH", "IGK", "IGL", "TR", "TRA", "TRB", "TRG", "TRD"]),
    ("sheep", ["IG", "IGH", "IGK", "IGL", "TR", "TRA", "TRB", "TRD"]),
    ("pongo", ["IGK"]),
    ("rat", ["IG", "IGH", "IGK", "IGL"]),
    ("salmon", ["IGH"]),
    ("pig", ["IG", "IGH", "IGK", "IGL", "TR", "TRB"]),
    ("teleostei", ["IG", "IGH", "IGI"]),
    ("dolphin", ["TR", "TRA", "TRD", "TRG"]),
    ("alpaca", ["IG", "IGH"]) ]

/-- The locus codes the specification names as the vocabulary of the table. -/
def locusVocabulary : List String :=
  ["IG", "IGH", "IGK", "IGL", "IGI", "TR", "TRA", "TRB", "TRG", "TRD"]

/-- The properties an object literal inherits from `Object.prototype`
(ECMA-262, "Properties of the Object Prototype Object" and its Annex B
additions): built-in functions with their `length`, and the `__proto__`
accessor, which on the literal returns `Object.prototype` itself. -/
def objectPrototype : List (String × JsValue) :=
  [ ("constructor", .func 1),
    ("hasOwnProperty", .func 1),
    ("isPrototypeOf", .func 1),
    ("propertyIsEnumerable", .func 1),
    ("toLocaleString", .func 0),
    ("toString", .func 0),
    ("valueOf", .func 0),
    ("__defineGetter__", .func 2),
    ("__defineSetter__", .func 2),
    ("__lookupGetter__", .func 1),
    ("__lookupSetter__", .func 1),
    ("__proto__", .object) ]

/-- Line 46: the property read `receptors_loci_Dict[species]`: an own property
of the literal if there is one, else a property found up the prototype chain,
else `undefined`. -/
def getProperty (species : String) : JsValue :=
  match receptors_loci_Dict.lookup species with
  | some codes => .array codes
  | none =>
    match objectPrototype.lookup species with
    | some v => v
    | none => .undefined

/-- The read `receptors_loci.length` of line 48 on a value that is not
`undefined`: a number, or `none` when the value has no such property (the
comparison `i < undefined` is then false). -/
def JsValue.lengthOf : JsValue → Option Nat
  | .undefined => none
  | .array items => some items.length
  | .func n => some n
  | .object => none

/-- The read `receptors_loci[i]` of lines 50-51 converted to a string, as the
`text` and `value` setters of an `option` element do: an element of the array,
or `"undefined"` where the value has no property `i`. -/
def JsValue.indexText (v : JsValue) (i : Nat) : String :=
  match v with
  | .array items => (items.get? i).getD "undefined"
  | _ => "undefined"

/-- An `option` element as line 49 creates it, with the two properties the
loop assigns. -/
structure OptionElement where
  text : String
  value : String
  deriving DecidableEq, Repr

/-- The part of the page `updateLocus` reads and writes: the `value` of the
`species` control and the options of the `receptorOrLocusType` dropdown; the
page markup provides both elements. -/
structure LocusPage where
  species : String
  options : List OptionElement
  deriving DecidableEq, Repr

/-- How a call of `updateLocus` ends: the page it leaves, and the exception
that ended it early, if any. -/
structure UpdateResult where
  page : LocusPage
  thrown : Option JsError
  deriving DecidableEq, Repr

/-- Lines 48-53: the `for` loop over `i = 0 .. n-1`, each pass adding one
option at the end of the dropdown. -/
def addOptions (receptors_loci : JsValue) (n : Nat) (options : List OptionElement) :
    List OptionElement :=
  (List.range n).foldl
    (fun opts i =>
      opts ++ [{ text := receptors_loci.indexText i, value := receptors_loci.indexText i }])
    options

/-- The function `updateLocus()`. -/
def updateLocus (page : LocusPage) : UpdateResult :=
  let species := page.species
  let page := { page with options := [] }
  let receptors_loci := getProperty species
  match receptors_loci with
  | .undefined => { page := page, thrown := some .typeError }
  | v =>
    { page := { page with options := addOptions v (v.lengthOf.getD 0) page.options },
      thrown := none }

/-! ## disable_refresh_back_nav.js -/

/-- One entry of the session history: its URL and whether it belongs to the
document the script runs in (traversing to it is then a same-document
navigation, the only kind that fires `popstate`). -/
structure HistoryEntry where
  url : String
  sameDocument : Bool
  deriving DecidableEq, Repr

/-- The browser state the script touches: the session history, the index of
its current entry, and the URL of the document (`document.URL`, which is also
`window.location.href`). -/
structure Browser where
  entries : List HistoryEntry
  index : Nat
  documentURL : String
  deriving DecidableEq, Repr

/-- The call `history.replaceState(null, null, url)`: the current entry is
overwritten and the document takes the URL. -/
def replaceState (b : Browser) (url : String) : Browser :=
  { entries := b.entries.set b.index { url := url, sameDocument := true },
    index := b.index,
    documentURL := url }

/-- The call `history.pushState(null, null, url)`: the entries after the
current one are dropped, a new entry is added and becomes current, and the
document takes the URL. -/
def pushState (b : Browser) (url : String) : Browser :=
  { entries := b.entries.take (b.index + 1) ++ [{ url := url, sameDocument := true }],
    index := b.index + 1,
    documentURL := url }

/-- The browser when the document has just loaded at `url`: entries of other
documents before and after, and the document's own entry as the current one. -/
def freshPage (before after : List String) (url : String) : Browser :=
  { entries :=
      before.map (fun u => { url := u, sameDocument := false }) ++
        [{ url := url, sameDocument := true }] ++
        after.map (fun u => { url := u, sameDocument := false }),
    index := before.length,
    documentURL := url }

/-- Lines 4-6: the `onbeforeunload` handler. -/
def onbeforeunload (b : Browser) : Browser :=
  replaceState b b.documentURL

/-- Lines 11-13: the `popstate` listener. -/
def onPopstate (b : Browser) : Browser :=
  pushState b b.documentURL

/-- Lines 2-10, the code run when the script loads; `hasReplaceState` is the
feature test of line 2. -/
def loadScript (hasReplaceState : Bool) (b : Browser) : Browser :=
  let b := if hasReplaceState then replaceState b b.documentURL else b
  pushState b b.documentURL

/-- A history traversal to the entry at index `target` (back, forward or
`history.go`).  When that entry is another entry of this document, the
document takes its URL and `popstate` fires, running the listener; otherwise no
`popstate` event reaches the script and nothing it controls changes. -/
def popstate (b : Browser) (target : Nat) : Browser :=
  match b.entries.get? target with
  | some e =>
    if e.sameDocument && target != b.index then
      onPopstate { b with index := target, documentURL := e.url }
    else b
  | none => b

/-- The browser after the script has loaded in a fresh page and a sequence of
`popstate` events, given by their target entries, has been handled. -/
def afterPopstates (hasReplaceState : Bool) (before after : List String) (url : String)
    (targets : List Nat) : Browser :=
  targets.foldl popstate (loadScript hasReplaceState (freshPage before after url))

/-! ## tooltip.js -/

/-- A table cell: whether `.df-table-class td.tooltip` selected it when
`DOMContentLoaded` fired (the two listeners are then attached to it), its
`innerText`, and its `data-title` attribute (`none` when absent). -/
structure Cell where
  eligible : Bool
  innerText : String
  dataTitle : Option String
  deriving DecidableEq, Repr

/-- Lines 4-6: the `mouseenter` listener. -/
def onMouseenter (tooltip : Cell) : Cell :=
  { tooltip with dataTitle := some tooltip.innerText }

/-- Lines 7-9: the `mouseleave` listener. -/
def onMouseleave (tooltip : Cell) : Cell :=
  { tooltip with dataTitle := none }

/-- What can happen to a cell: the two pointer events, and a change of its text
by some other part of the page. -/
inductive CellEvent where
  | mouseenter
  | mouseleave
  | setText (text : String)
  deriving DecidableEq, Repr

/-- Dispatch of one event to a cell: a pointer event runs the listener attached
for it, if the cell has one. -/
def dispatch (cell : Cell) : CellEvent → Cell
  | .mouseenter => if cell.eligible then onMouseenter cell else cell
  | .mouseleave => if cell.eligible then onMouseleave cell else cell
  | .setText text => { cell with innerText := text }

/-! ## Auxiliary definitions for the statements -/

/-- A form whose only input is an unchecked checkbox, with no alert shown and
the submit event's default action not prevented. -/
def uncheckedForm : FormPage :=
  { inputs := [{ isCheckbox := true, checked := false }], alerts := [], defaultPrevented := false }

/-- The option the loop builds from one locus code. -/
def optionOf (code : String) : OptionElement :=
  { text := code, value := code }

/-- The invariant of the navigation lock: the document is at `url`, and so is
every history entry of this document. -/
def Pinned (url : String) (b : Browser) : Prop :=
  b.documentURL = url ∧ ∀ e ∈ b.entries, e.sameDocument = true → e.url = url

/-- The cell after a sequence of events. -/
def afterEvents (cell : Cell) (events : List CellEvent) : Cell :=
  events.foldl dispatch cell

/-- An eligible cell that shows "IGHV1-69" and carries a stale `data-title`. -/
def sampleCell : Cell :=
  { eligible := true, innerText := "IGHV1-69", dataTitle := some "old" }

/-! ## Properties of `validateForm` -/

theorem checkedLoop_eq_true_iff (boxes : List InputElement) :
    checkedLoop boxes = true ↔ ∃ box ∈ boxes, box.checked = true := by
  induction boxes with
  | nil => simp [checkedLoop]
  | cons box rest ih =>
    by_cases h : box.checked = true
    · simp [checkedLoop, h]
    · simp [checkedLoop, h, ih]

theorem checkedLoop_eq_of_flags (xs ys : List InputElement)
    (h : xs.map (fun el => el.checked) = ys.map (fun el => el.checked)) :
    checkedLoop xs = checkedLoop ys := by
  induction xs generalizing ys with
  | nil =>
    cases ys with
    | nil => rfl
    | cons y ys => simp at h
  | cons x xs ih =>
    cases ys with
    | nil => simp at h
    | cons y ys =>
      simp only [List.map_cons, List.cons.injEq] at h
      simp [checkedLoop, h.1, ih ys h.2]

theorem validateForm_snd (page : FormPage) :
    (validateForm page).2 =
      (decide (querySelectorAllCheckboxes page = []) ||
        checkedLoop (querySelectorAllCheckboxes page)) := by
  unfold validateForm
  cases hq : querySelectorAllCheckboxes page with
  | nil => simp [checkedLoop]
  | cons box rest =>
    cases hc : checkedLoop (box :: rest) <;> simp [hc]

/-- C1: `validateForm` returns true for a form without checkboxes; for a form
with at least one checkbox it returns true exactly when some checkbox is
checked, so it returns false exactly when there are checkboxes and none is
checked. -/
theorem validateForm_returns (page : FormPage) :
    (querySelectorAllCheckboxes page = [] → (validateForm page).2 = true) ∧
    (querySelectorAllCheckboxes page ≠ [] →
      ((validateForm page).2 = true ↔
        ∃ box ∈ querySelectorAllCheckboxes page, box.checked = true)) ∧
    ((validateForm page).2 = false ↔
      querySelectorAllCheckboxes page ≠ [] ∧
        ∀ box ∈ querySelectorAllCheckboxes page, box.checked = false) := by
  rw [validateForm_snd]
  refine ⟨?_, ?_, ?_⟩
  · intro h
    simp [h]
  · intro h
    simp [h, checkedLoop_eq_true_iff]
  · by_cases h : querySelectorAllCheckboxes page = []
    · simp [h]
    · have hl := checkedLoop_eq_true_iff (querySelectorAllCheckboxes page)
      cases hc : checkedLoop (querySelectorAllCheckboxes page)
      · simp only [h, decide_False, Bool.or_false, ne_eq, not_false_eq_true, true_and, true_iff]
        intro box hbox
        cases hb : box.checked
        · rfl
        · exact absurd (hl.mpr ⟨box, hbox, hb⟩) (by simp [hc])
      · obtain ⟨box, hbox, hb⟩ := hl.mp hc
        constructor
        · intro hf
          simp at hf
        · rintro ⟨_, hall⟩
          have := hall box hbox
          simp [hb] at this

theorem validateForm_fst (page : FormPage) :
    (validateForm page).1 =
      if (validateForm page).2 then page
      else { page with alerts := page.alerts ++ [alertMessage] } := by
  unfold validateForm
  cases hq : querySelectorAllCheckboxes page with
  | nil => simp [checkedLoop]
  | cons box rest =>
    cases hc : checkedLoop (box :: rest) <;> simp [hc]

/-- C6: when `validateForm` returns false the page differs from the one before
the call by exactly one more alert, with the text "Please select at least one
option."; when it returns true the page is unchanged (no alert, nothing else);
and two pages whose checkboxes carry the same checked flags get the same
result. -/
theorem validateForm_effects (page : FormPage) :
    ((validateForm page).2 = false →
      (validateForm page).1 =
        { page with alerts := page.alerts ++ ["Please select at least one option."] }) ∧
    ((validateForm page).2 = true → (validateForm page).1 = page) ∧
    (∀ other : FormPage,
      (querySelectorAllCheckboxes other).map (fun el => el.checked) =
          (querySelectorAllCheckboxes page).map (fun el => el.checked) →
        (validateForm other).2 = (validateForm page).2) := by
  refine ⟨?_, ?_, ?_⟩
  · intro h
    rw [validateForm_fst, h]
    rfl
  · intro h
    rw [validateForm_fst, h]
    rfl
  · intro other h
    rw [validateForm_snd, validateForm_snd, checkedLoop_eq_of_flags _ _ h]
    have hnil : querySelectorAllCheckboxes other = [] ↔ querySelectorAllCheckboxes page = [] := by
      constructor
      · intro ho
        rw [ho] at h
        simpa using h.symm
      · intro hp
        rw [hp] at h
        simpa using h
    simp [hnil]

/-- C7, as stated, fails: on a form with one checkbox, unchecked, `validateForm`
returns false and shows the alert, but the default action of the submission has
not been prevented. -/
theorem validateForm_does_not_preventDefault :
    querySelectorAllCheckboxes uncheckedForm ≠ [] ∧
    (∀ box ∈ querySelectorAllCheckboxes uncheckedForm, box.checked = false) ∧
    (validateForm uncheckedForm).2 = false ∧
    (validateForm uncheckedForm).1.defaultPrevented = false := by
  decide

/-- C7, amended: on a form with at least one checkbox and none checked,
`validateForm` shows the alert and returns false, and it leaves the default
action of the submission as it was: it prevents nothing itself, the caller
blocks the submission on the returned false. -/
theorem validateForm_invalid (page : FormPage)
    (hsome : querySelectorAllCheckboxes page ≠ [])
    (hnone : ∀ box ∈ querySelectorAllCheckboxes page, box.checked = false) :
    (validateForm page).2 = false ∧
    (validateForm page).1.alerts = page.alerts ++ ["Please select at least one option."] ∧
    (validateForm page).1.defaultPrevented = page.defaultPrevented ∧
    (validateForm page).1.inputs = page.inputs := by
  have hret : (validateForm page).2 = false := by
    rw [validateForm_snd]
    have hloop : checkedLoop (querySelectorAllCheckboxes page) = false := by
      cases hc : checkedLoop (querySelectorAllCheckboxes page)
      · rfl
      · obtain ⟨box, hbox, hb⟩ := (checkedLoop_eq_true_iff _).mp hc
        rw [hnone box hbox] at hb
        exact absurd hb (by decide)
    simp [hsome, hloop]
  rw [validateForm_fst, hret]
  exact ⟨rfl, rfl, rfl, rfl⟩

theorem validateForm_invalid_witness :
    (validateForm uncheckedForm).2 = false ∧
    (validateForm uncheckedForm).1.alerts =
      uncheckedForm.alerts ++ ["Please select at least one option."] ∧
    (validateForm uncheckedForm).1.defaultPrevented = uncheckedForm.defaultPrevented ∧
    (validateForm uncheckedForm).1.inputs = uncheckedForm.inputs :=
  validateForm_invalid uncheckedForm (by decide) (by decide)

/-! ## Properties of `displaySelectedFile` -/

/-- C4: after `displaySelectedFile` the text of the status element is
"Selected file: " followed by the first file's name when the input holds a
file, and empty when it holds none; it does not depend on the text before the
call, and a second call on the same input leaves it as it is. -/
theorem displaySelectedFile_text (input : FileInput) (doc : FileDocument) :
    (∀ (first : File) (rest : List File), input.files = first :: rest →
      (displaySelectedFile input doc).selectedFile = "Selected file: " ++ first.name) ∧
    (input.files = [] → (displaySelectedFile input doc).selectedFile = "") ∧
    (∀ other : FileDocument, displaySelectedFile input other = displaySelectedFile input doc) ∧
    displaySelectedFile input (displaySelectedFile input doc) = displaySelectedFile input doc := by
  refine ⟨?_, ?_, ?_, ?_⟩
  · intro first rest h
    simp [displaySelectedFile, h]
  · intro h
    simp [displaySelectedFile, h]
  · intro other
    rfl
  · rfl

/-! ## Properties of `updateLocus` -/

/-- C5: every entry of `receptors_loci_Dict` lists between 1 and 9 locus
codes, each of them one of IG, IGH, IGK, IGL, IGI, TR, TRA, TRB, TRG, TRD. -/
theorem receptors_loci_Dict_entries :
    ∀ entry ∈ receptors_loci_Dict,
      1 ≤ entry.2.length ∧ entry.2.length ≤ 9 ∧ ∀ code ∈ entry.2, code ∈ locusVocabulary := by
  decide

theorem receptors_loci_Dict_entries_witness :
    1 ≤ ["IGK", "TR", "TRA", "TRB", "TRG", "TRD"].length ∧
    ["IGK", "TR", "TRA", "TRB", "TRG", "TRD"].length ≤ 9 ∧
    ∀ code ∈ ["IGK", "TR", "TRA", "TRB", "TRG", "TRD"], code ∈ locusVocabulary :=
  receptors_loci_Dict_entries ("camel", ["IGK", "TR", "TRA", "TRB", "TRG", "TRD"]) (by decide)

theorem receptors_loci_Dict_keys_nodup : (receptors_loci_Dict.map Prod.fst).Nodup := by
  decide

theorem updateLocus_prior (species : String) (prior : List OptionElement) :
    updateLocus { species := species, options := prior } =
      updateLocus { species := species, options := [] } :=
  rfl

theorem updateLocus_of_key :
    ∀ entry ∈ receptors_loci_Dict,
      updateLocus { species := entry.1, options := [] } =
        { page := { species := entry.1, options := entry.2.map optionOf }, thrown := none } := by
  decide

theorem updateLocus_of_inherited :
    ∀ p ∈ objectPrototype,
      updateLocus { species := p.1, options := [] } =
        { page :=
            { species := p.1,
              options := List.replicate (p.2.lengthOf.getD 0) (optionOf "undefined") },
          thrown := none } := by
  decide

theorem lookup_none_of_not_mem {β : Type} (key : String) (l : List (String × β))
    (h : key ∉ l.map Prod.fst) : l.lookup key = none := by
  induction l with
  | nil => rfl
  | cons p rest ih =>
    obtain ⟨k, v⟩ := p
    simp only [List.map_cons, List.mem_cons, not_or] at h
    have hk : (key == k) = false := by simpa using h.1
    simp [List.lookup, hk, ih h.2]

/-- C2: with a key of the mapping selected, `updateLocus` ends normally and
leaves the dropdown with exactly the mapped codes as its options, in order,
each with text and value equal to the code; "camel" gives IGK, TR, TRA, TRB,
TRG, TRD. -/
theorem updateLocus_populates :
    (∀ entry ∈ receptors_loci_Dict, ∀ prior : List OptionElement,
      updateLocus { species := entry.1, options := prior } =
        { page :=
            { species := entry.1,
              options := entry.2.map (fun code => { text := code, value := code }) },
          thrown := none }) ∧
    (∀ prior : List OptionElement,
      (updateLocus { species := "camel", options := prior }).page.options.map
          (fun o => (o.text, o.value)) =
        [("IGK", "IGK"), ("TR", "TR"), ("TRA", "TRA"), ("TRB", "TRB"), ("TRG", "TRG"),
          ("TRD", "TRD")]) := by
  constructor
  · intro entry hentry prior
    rw [updateLocus_prior, updateLocus_of_key entry hentry]
    rfl
  · intro prior
    rw [updateLocus_prior]
    decide

/-- C3: the outcome of `updateLocus` is the same whatever the dropdown held
before, for every selected species and so for every key of the mapping; and
calling it again after a key has been selected leaves exactly the options of
the newly selected key: nothing of the earlier selection stays. -/
theorem updateLocus_replaces (species : String) (prior₁ prior₂ : List OptionElement) :
    updateLocus { species := species, options := prior₁ } =
      updateLocus { species := species, options := prior₂ } ∧
    (∀ next ∈ receptors_loci_Dict,
      (updateLocus
          { (updateLocus { species := species, options := prior₁ }).page with
            species := next.1 }).page.options =
        next.2.map (fun code => { text := code, value := code })) := by
  constructor
  · rw [updateLocus_prior species prior₁, updateLocus_prior species prior₂]
  · intro next hnext
    rw [updateLocus_prior, updateLocus_of_key next hnext]
    rfl

/-- C10, as stated, fails: "constructor" is no key of the mapping, yet with it
selected `updateLocus` ends normally and leaves one option in the dropdown,
with text and value "undefined". -/
theorem updateLocus_constructor :
    "constructor" ∉ receptors_loci_Dict.map Prod.fst ∧
    updateLocus { species := "constructor", options := [] } =
      { page :=
          { species := "constructor",
            options := [{ text := "undefined", value := "undefined" }] },
        thrown := none } := by
  decide

/-- C10, amended: with a value selected that is no key of the mapping,
`updateLocus` fails with a `TypeError`, the dropdown emptied, unless the value
names a property inherited from `Object.prototype`; for such a name it ends
normally and leaves as many options as the inherited value's `length` (none
where it has no `length`), each with text and value "undefined".  In no case
does an option carry a locus code. -/
theorem updateLocus_unknown (species : String) (prior : List OptionElement)
    (hkey : species ∉ receptors_loci_Dict.map Prod.fst) :
    (species ∉ objectPrototype.map Prod.fst →
      updateLocus { species := species, options := prior } =
        { page := { species := species, options := [] }, thrown := some .typeError }) ∧
    (∀ v : JsValue, (species, v) ∈ objectPrototype →
      updateLocus { species := species, options := prior } =
        { page :=
            { species := species,
              options :=
                List.replicate (v.lengthOf.getD 0) { text := "undefined", value := "undefined" } },
          thrown := none }) ∧
    (∀ o ∈ (updateLocus { species := species, options := prior }).page.options,
      o = { text := "undefined", value := "undefined" }) := by
  have hdict := lookup_none_of_not_mem species receptors_loci_Dict hkey
  have hfail : species ∉ objectPrototype.map Prod.fst →
      updateLocus { species := species, options := prior } =
        { page := { species := species, options := [] }, thrown := some .typeError } := by
    intro hproto
    have hp := lookup_none_of_not_mem species objectPrototype hproto
    simp [updateLocus, getProperty, hdict, hp]
  have hinh : ∀ v : JsValue, (species, v) ∈ objectPrototype →
      updateLocus { species := species, options := prior } =
        { page :=
            { species := species,
              options :=
                List.replicate (v.lengthOf.getD 0) { text := "undefined", value := "undefined" } },
          thrown := none } := by
    intro v hv
    rw [updateLocus_prior]
    exact updateLocus_of_inherited (species, v) hv
  refine ⟨hfail, hinh, ?_⟩
  intro o ho
  by_cases hproto : species ∈ objectPrototype.map Prod.fst
  · obtain ⟨p, hp, hfst⟩ := List.mem_map.mp hproto
    obtain ⟨k, v⟩ := p
    simp only at hfst
    subst hfst
    rw [hinh v hp] at ho
    exact List.eq_of_mem_replicate ho
  · rw [hfail hproto] at ho
    simp at ho

theorem updateLocus_unknown_witness :
    ("unicorn" ∉ objectPrototype.map Prod.fst →
      updateLocus { species := "unicorn", options := [optionOf "IG"] } =
        { page := { species := "unicorn", options := [] }, thrown := some .typeError }) ∧
    (∀ v : JsValue, ("unicorn", v) ∈ objectPrototype →
      updateLocus { species := "unicorn", options := [optionOf "IG"] } =
        { page :=
            { species := "unicorn",
              options :=
                List.replicate (v.lengthOf.getD 0) { text := "undefined", value := "undefined" } },
          thrown := none }) ∧
    (∀ o ∈ (updateLocus { species := "unicorn", options := [optionOf "IG"] }).page.options,
      o = { text := "undefined", value := "undefined" }) :=
  updateLocus_unknown "unicorn" [optionOf "IG"] (by decide)

/-! ## Properties of the navigation lock -/

theorem pinned_freshPage (before after : List String) (url : String) :
    Pinned url (freshPage before after url) := by
  refine ⟨rfl, ?_⟩
  intro e he hsame
  simp only [freshPage, List.mem_append, List.mem_map, List.mem_singleton] at he
  rcases he with (⟨u, _, rfl⟩ | rfl) | ⟨u, _, rfl⟩
  · simp at hsame
  · rfl
  · simp at hsame

theorem pinned_replaceState (url : String) (b : Browser) (h : Pinned url b) :
    Pinned url (replaceState b b.documentURL) := by
  refine ⟨h.1, ?_⟩
  intro e he hsame
  rcases List.mem_or_eq_of_mem_set he with hmem | rfl
  · exact h.2 e hmem hsame
  · exact h.1

theorem pinned_pushState (url : String) (b : Browser) (h : Pinned url b) :
    Pinned url (pushState b b.documentURL) := by
  refine ⟨h.1, ?_⟩
  intro e he hsame
  simp only [pushState, List.mem_append, List.mem_singleton] at he
  rcases he with hmem | rfl
  · exact h.2 e (List.mem_of_mem_take hmem) hsame
  · exact h.1

theorem pinned_loadScript (url : String) (hasReplaceState : Bool) (b : Browser)
    (h : Pinned url b) : Pinned url (loadScript hasReplaceState b) := by
  unfold loadScript
  cases hasReplaceState
  · exact pinned_pushState url b h
  · exact pinned_pushState url _ (pinned_replaceState url b h)

theorem pinned_popstate (url : String) (b : Browser) (target : Nat) (h : Pinned url b) :
    Pinned url (popstate b target) := by
  unfold popstate
  cases hget : b.entries.get? target with
  | none => exact h
  | some e =>
    by_cases hcond : (e.sameDocument && target != b.index) = true
    · simp only [hcond, if_true]
      have hsame : e.sameDocument = true := by
        simp only [Bool.and_eq_true] at hcond
        exact hcond.1
      have hurl : e.url = url := h.2 e (List.get?_mem hget) hsame
      exact pinned_pushState url _ ⟨hurl, h.2⟩
    · simp only [hcond]
      exact h

theorem pinned_foldl (url : String) (targets : List Nat) (b : Browser) (h : Pinned url b) :
    Pinned url (targets.foldl popstate b) := by
  induction targets generalizing b with
  | nil => exact h
  | cons t rest ih => exact ih (popstate b t) (pinned_popstate url b t h)

/-- C8: once the script has loaded in a page at `url`, after every `popstate`
event of every finite sequence of them (every prefix `take k` of the sequence)
the document's URL is still `url`, whether or not the browser has
`replaceState` and whatever the history held around the page. -/
theorem popstate_keeps_url (hasReplaceState : Bool) (before after : List String) (url : String)
    (targets : List Nat) (k : Nat) :
    (afterPopstates hasReplaceState before after url (targets.take k)).documentURL = url :=
  (pinned_foldl url (targets.take k) _
    (pinned_loadScript url hasReplaceState _ (pinned_freshPage before after url))).1

/-! ## Properties of the tooltip listeners -/

theorem dispatch_eligible (cell : Cell) (event : CellEvent) :
    (dispatch cell event).eligible = cell.eligible := by
  cases event <;> simp only [dispatch] <;> split <;> rfl

theorem afterEvents_eligible (cell : Cell) (events : List CellEvent) :
    (afterEvents cell events).eligible = cell.eligible := by
  unfold afterEvents
  induction events generalizing cell with
  | nil => rfl
  | cons event rest ih =>
    rw [List.foldl_cons, ih, dispatch_eligible]

/-- C9: for a tooltip-eligible cell and any events before (pointer events and
changes of its text), right after a `mouseenter` the `data-title` attribute is
the cell's text of that moment, whatever it held, right after a `mouseleave`
it is absent, and neither listener changes the text. -/
theorem tooltip_follows_text (cell : Cell) (heligible : cell.eligible = true)
    (events : List CellEvent) :
    (dispatch (afterEvents cell events) .mouseenter).dataTitle =
      some (afterEvents cell events).innerText ∧
    (dispatch (afterEvents cell events) .mouseenter).innerText =
      (afterEvents cell events).innerText ∧
    (dispatch (afterEvents cell events) .mouseleave).dataTitle = none ∧
    (dispatch (afterEvents cell events) .mouseleave).innerText =
      (afterEvents cell events).innerText := by
  have h : (afterEvents cell events).eligible = true := by
    rw [afterEvents_eligible, heligible]
  simp [dispatch, h, onMouseenter, onMouseleave]

theorem tooltip_follows_text_witness :
    (dispatch (afterEvents sampleCell [.mouseenter, .setText "IGHV3-21"]) .mouseenter).dataTitle =
      some (afterEvents sampleCell [.mouseenter, .setText "IGHV3-21"]).innerText ∧
    (dispatch (afterEvents sampleCell [.mouseenter, .setText "IGHV3-21"]) .mouseenter).innerText =
      (afterEvents sampleCell [.mouseenter, .setText "IGHV3-21"]).innerText ∧
    (dispatch (afterEvents sampleCell [.mouseenter, .setText "IGHV3-21"]) .mouseleave).dataTitle =
      none ∧
    (dispatch (afterEvents sampleCell [.mouseenter, .setText "IGHV3-21"]) .mouseleave).innerText =
      (afterEvents sampleCell [.mouseenter, .setText "IGHV3-21"]).innerText :=
  tooltip_follows_text sampleCell (by decide) [.mouseenter, .setText "IGHV3-21"]

end CllGenie
